import Mathlib

/-
  Verification of the CLIF Python value-marshaling core against its
  specification.  The C++ sources embedded here are:
    - clif/python/types.cc       (scalar Clif_PyObjAs conversions)
    - clif/python/stltypes.h     (containers, pair, optional, unique_ptr,
                                  std::function, std::variant, Iterator)
    - the slot result adapters   (slot::as_bool, slot::as_hash, ...)
  The host runtime (CPython) primitives the code calls are modelled as
  functions over an abstract object type PyObj; a pending host error is an
  Option PyError, none meaning the error indicator is clear.
-/

set_option autoImplicit false

namespace ClifSpec

/-- Host exception classes used by the embedded fragment of the runtime. -/
inductive PyExc where
  | typeError
  | valueError
  | overflowError
  | indexError
  deriving DecidableEq, Repr

/-- A pending host error: an exception class together with its message. -/
structure PyError where
  exc : PyExc
  msg : String
  deriving DecidableEq, Repr

/-- The error indicator of the host runtime: none means no pending error. -/
abbrev ErrState := Option PyError

/-- The fragment of the host object model that the conversions touch.
A text object carries its UTF-8 bytes; a callable carries its arity and an
identity; a capsule carries an identity. -/
inductive PyObj where
  | pyNone
  | pyBool (b : Bool)
  | pyInt (v : Int)
  | pyBytes (s : List Nat)
  | pyStr (utf8 : List Nat)
  | pyList (xs : List PyObj)
  | pyTuple (xs : List PyObj)
  | pyCallable (arity : Nat) (id : Nat)
  | pyCapsule (id : Nat)

/-- C limits on an LP64 platform (the configuration the source assumes via
SIZEOF_INT < SIZEOF_LONG). -/
def INT_MAX : Int := 2147483647

/-- Smallest C int. -/
def INT_MIN : Int := -2147483648

/-- Largest C long (64 bit). -/
def LONG_MAX : Int := 9223372036854775807

/-- Smallest C long (64 bit). -/
def LONG_MIN : Int := -9223372036854775808

/-- Largest C unsigned long (64 bit). -/
def ULONG_MAX : Int := 18446744073709551615

/-- Largest C unsigned char. -/
def UCHAR_MAX : Int := 255

/-- PyLong_Check: true for int objects and for bool, which is an int
subclass in the host runtime. -/
def PyLong_Check : PyObj → Bool
  | .pyInt _ => true
  | .pyBool _ => true
  | _ => false

/-- PyLong_CheckExact: true only for plain int objects, not for bool. -/
def PyLong_CheckExact : PyObj → Bool
  | .pyInt _ => true
  | _ => false

/-- PyBool_Check: true only for the two bool singletons. -/
def PyBool_Check : PyObj → Bool
  | .pyBool _ => true
  | _ => false

/-- PyCallable_Check: true for callable objects. -/
def PyCallable_Check : PyObj → Bool
  | .pyCallable _ _ => true
  | _ => false

/-- The integer value carried by an int or bool object, if any. -/
def pyIntVal : PyObj → Option Int
  | .pyInt v => some v
  | .pyBool b => some (if b then 1 else 0)
  | _ => none

/-- PyLong_AsLong: the value of an int-like object, or an overflow error
when it does not fit a C long, or a type error for other objects. -/
def PyLong_AsLong (py : PyObj) : Except PyError Int :=
  match pyIntVal py with
  | some v =>
      if LONG_MIN ≤ v ∧ v ≤ LONG_MAX then .ok v
      else .error ⟨.overflowError, "Python int too large to convert to C long"⟩
  | none => .error ⟨.typeError, "an integer is required"⟩

/-- PyLong_AsUnsignedLong: the value of an int-like object, an overflow
error for negative values or values above ULONG_MAX, a type error
otherwise. -/
def PyLong_AsUnsignedLong (py : PyObj) : Except PyError Int :=
  match pyIntVal py with
  | some v =>
      if v < 0 then
        .error ⟨.overflowError, "cannot convert negative value to unsigned int"⟩
      else if v ≤ ULONG_MAX then .ok v
      else .error ⟨.overflowError, "Python int too large to convert"⟩
  | none => .error ⟨.typeError, "an integer is required"⟩

/-- Clif_PyObjAs for C int (types.cc): require an int object, read it
through C long, then range-check against the int width, reporting a value
error rather than truncating. -/
def clif_PyObjAs_int (py : PyObj) : Except PyError Int :=
  if PyLong_Check py then
    match PyLong_AsLong py with
    | .error e => .error e
    | .ok i =>
        if INT_MAX < i ∨ i < INT_MIN then
          .error ⟨.valueError, "value too large for int"⟩
        else .ok i
  else .error ⟨.typeError, "expecting int"⟩

/-- Clif_PyObjAs for C unsigned long (types.cc): require an int object and
read it with PyLong_AsUnsignedLong, failing if that left an error pending. -/
def clif_PyObjAs_ulong (py : PyObj) : Except PyError Int :=
  if PyLong_Check py then PyLong_AsUnsignedLong py
  else .error ⟨.typeError, "expecting int"⟩

/-- Clif_PyObjAs for C unsigned char (types.cc): convert through the widest
unsigned integral type, then range-check against the destination width. -/
def clif_PyObjAs_uchar (py : PyObj) : Except PyError Int :=
  match clif_PyObjAs_ulong py with
  | .error e => .error e
  | .ok i =>
      if UCHAR_MAX < i then
        .error ⟨.valueError, "value is too large for unsigned char"⟩
      else .ok i

/-- Clif_PyObjFrom for std::string (types.cc): build a host bytes object
from the byte content, under the default post-conversion policy whose
Apply is the identity. -/
def clif_PyObjFrom_bytes (s : List Nat) : PyObj := .pyBytes s

/-- Clif_PyObjAs for std::string via py::ObjToStr (types.cc): accept a text
object (copying its UTF-8 bytes) or a bytes object, and reject any other
shape with a type error. -/
def clif_PyObjAs_string (py : PyObj) : Except PyError (List Nat) :=
  match py with
  | .pyStr s => .ok s
  | .pyBytes s => .ok s
  | _ => .error ⟨.typeError, "expecting str"⟩

/-- Modelled from the spec: Clif_PyObjFrom for C int is declared in
clif/python/types.h, which is not among the sources here; section 4.2 makes
scalar ToHost total, producing the host integer object for the value. -/
def clif_PyObjFrom_int (v : Int) : PyObj := .pyInt v

/-- A candidate conversion into one std::variant alternative, as invoked by
PyObjAsVariantAt: given the host object and the current error indicator it
either commits a value or fails, in either case leaving a new error
indicator. -/
abbrev VariantConv (α : Type) := PyObj → ErrState → Option α × ErrState

/-- The terminal error raised when every variant alternative was tried. -/
def variantExhaustedError : PyError :=
  ⟨.typeError, "Failed to convert to any of std::variant alternatives"⟩

/-- clif_std_py_variant::PyObjAsVariantTryAll (stltypes.h): try each
alternative conversion in declared order; commit to the first success; a
failed attempt is followed by PyErr_Clear before the next attempt; when the
list of alternatives is exhausted, set a single terminal type error and
fail. -/
def PyObjAsVariantTryAll {α : Type} :
    List (VariantConv α) → PyObj → ErrState → Option α × ErrState
  | [], _, _ => (none, some variantExhaustedError)
  | c :: rest, py, st =>
      match c py st with
      | (some v, st1) => (some v, st1)
      | (none, _) => PyObjAsVariantTryAll rest py none

/-- Elementwise Option map: the shape of a ToHost traversal over a
container, failing as soon as one element fails. -/
def mapOpt {α β : Type} (f : α → Option β) : List α → Option (List β)
  | [] => some []
  | x :: xs =>
      match f x with
      | none => none
      | some v => (mapOpt f xs).map (v :: ·)

/-- Elementwise Except map: the shape of a FromHost traversal over the
elements of a host sequence, failing on the first element failure. -/
def mapExc {ε α β : Type} (f : α → Except ε β) : List α → Except ε (List β)
  | [] => .ok []
  | x :: xs =>
      match f x with
      | .error e => .error e
      | .ok v => (mapExc f xs).map (v :: ·)

/-- The element loop of py::ListFromSizableCont (stltypes.h).  The last
argument counts the owned host references currently held by this call tree:
each successful element conversion creates one, and the error path does
Py_DECREF on the list, which releases the list itself together with every
element already stored in it. -/
def listFromLoop {α : Type} (f : α → Option PyObj) :
    List α → List PyObj → Nat → Option PyObj × Nat
  | [], acc, live => (some (.pyList acc.reverse), live)
  | x :: xs, acc, live =>
      match f x with
      | none => (none, live - (1 + acc.length))
      | some v => listFromLoop f xs (v :: acc) (live + 1)

/-- py::ListFromSizableCont (stltypes.h): allocate a host list of the
container size, then fill it element by element; on any element failure
release the partially built list and fail.  The Nat argument and result
track the number of owned host references live before and after the call. -/
def ListFromSizableCont {α : Type} (f : α → Option PyObj) (c : List α)
    (live : Nat) : Option PyObj × Nat :=
  listFromLoop f c [] (live + 1)

/-- Clif_PyObjFrom for std::vector of C int (stltypes.h), with the
reference ledger projected away. -/
def clif_PyObjFrom_vector_int (l : List Int) : Option PyObj :=
  (ListFromSizableCont (fun v => some (clif_PyObjFrom_int v)) l 0).1

/-- PyObject_GetIter followed by draining the iterator: the element
sequence of an iterable host object, or a type error for non-iterables. -/
def pyIterElems : PyObj → Except PyError (List PyObj)
  | .pyList xs => .ok xs
  | .pyTuple xs => .ok xs
  | _ => .error ⟨.typeError, "object is not iterable"⟩

/-- The loop of py::IterToCont (stltypes.h) specialised to push_back: each
host element is converted and appended, stopping with failure on the first
element that does not convert. -/
def iterToCont {α : Type} (as : PyObj → Except PyError α) :
    List PyObj → List α → Except PyError (List α)
  | [], acc => .ok acc.reverse
  | el :: rest, acc =>
      match as el with
      | .error e => .error e
      | .ok item => iterToCont as rest (item :: acc)

/-- Clif_PyObjAs for std::vector (stltypes.h): clear the destination,
obtain a host iterator, and insert converted elements one at a time. -/
def clif_PyObjAs_vector {α : Type} (as : PyObj → Except PyError α)
    (py : PyObj) : Except PyError (List α) :=
  match pyIterElems py with
  | .error e => .error e
  | .ok els => iterToCont as els []

/-- The identity test Py_None == py for the host None singleton. -/
def pyIsNone : PyObj → Bool
  | .pyNone => true
  | _ => false

/-- Clif_PyObjAs for std::optional (stltypes.h), parameterised by the
payload conversion: the host None singleton resets the destination and
succeeds; otherwise the payload is emplaced and converted in place, and a
payload failure resets the destination before failing. -/
def clif_PyObjAs_optional {α : Type} (as : PyObj → Except PyError α)
    (py : PyObj) (c : Option α) : Bool × Option α :=
  if pyIsNone py then (true, none)
  else
    match as py with
    | .ok v => (true, some v)
    | .error _ => (false, none)

/-- Clif_PyObjAs for std::unique_ptr (stltypes.h), parameterised by the
payload conversion: a fresh payload is allocated and converted into; only
on success is it moved into the destination, which a failure leaves
untouched.  The destination holds none when it owns no object. -/
def clif_PyObjAs_unique_ptr {α : Type} (as : PyObj → Except PyError α)
    (py : PyObj) (c : Option α) : Bool × Option α :=
  match as py with
  | .ok v => (true, some v)
  | .error _ => (false, c)

/-- The arity of a callable host object, when it is one. -/
def callableArity : PyObj → Option Nat
  | .pyCallable arity _ => some arity
  | _ => none

/-- The identity of a callable host object, when it is one. -/
def callableId : PyObj → Option Nat
  | .pyCallable _ id => some id
  | _ => none

/-- Modelled from the spec: CallableNeedsNarguments is defined in the CLIF
runtime translation unit, which is not among the sources here; section 4.6
says construction validates that the arity of the callable matches the
native signature, failing with an arity-mismatch error otherwise. -/
def CallableNeedsNarguments (py : PyObj) (n : Nat) : Bool × ErrState :=
  match callableArity py with
  | some arity =>
      if arity = n then (true, none)
      else (false, some ⟨.typeError, "callable has the wrong number of arguments"⟩)
  | none => (false, some ⟨.typeError, "expecting a callable"⟩)

/-- Clif_PyObjAs for std::function of arity n (stltypes.h): reject
non-callables with a type error, then validate the arity; only on success
is the destination assigned the wrapper retaining the callable.  The
destination models the std::function as the identity of the wrapped
callable, none when empty; no invocation of the callable occurs here.
Result: (return value, pending error, destination afterwards). -/
def clif_PyObjAs_function (py : PyObj) (n : Nat) (c : Option Nat) :
    Bool × ErrState × Option Nat :=
  if PyCallable_Check py then
    match CallableNeedsNarguments py n with
    | (true, _) => (true, none, callableId py)
    | (false, e) => (false, e, c)
  else (false, some ⟨.typeError, "callable expected"⟩, c)

/-- clif::Iterator (stltypes.h): a shared-ownership handle on the wrapped
container plus the traversal position.  self is none once the iterator has
dropped its hold on the Shared Container Handle. -/
structure Iterator (α : Type) where
  self : Option (List α)
  it : Nat

/-- Iterator::Next (stltypes.h): nothing once the handle is released;
otherwise dereference and advance, or, at the end of the container, release
the hold on the Shared Container Handle and signal exhaustion. -/
def Iterator.next {α : Type} (s : Iterator α) : Option α × Iterator α :=
  match s.self with
  | none => (none, s)
  | some cont =>
      if h : s.it < cont.length then
        (some (cont.get ⟨s.it, h⟩), { s with it := s.it + 1 })
      else
        (none, { self := none, it := s.it })

/-- The state after n further calls to Next, discarding the yields. -/
def Iterator.advance {α : Type} (s : Iterator α) : Nat → Iterator α
  | 0 => s
  | n + 1 => (s.next.2).advance n

/-- PySequence_Length: the length of a sequence-shaped host object, or
none standing for the -1-with-pending-error outcome on other shapes. -/
def PySequence_Length : PyObj → Option Nat
  | .pyList xs => some xs.length
  | .pyTuple xs => some xs.length
  | .pyBytes s => some s.length
  | .pyStr s => some s.length
  | _ => none

/-- PySequence_ITEM: the i-th element of a sequence-shaped host object. -/
def PySequence_ITEM (py : PyObj) (i : Nat) : Option PyObj :=
  match py with
  | .pyList xs => xs[i]?
  | .pyTuple xs => xs[i]?
  | .pyBytes s => (s[i]?).map (fun b => .pyInt (Int.ofNat b))
  | .pyStr s => (s[i]?).map (fun b => .pyStr [b])
  | _ => none

/-- Clif_PyObjAs for std::pair (stltypes.h), parameterised by the two
element conversions: require a length-2 sequence, convert both elements
into local temporaries, and write the destination only after both have
succeeded, so any failure leaves the destination exactly as it was. -/
def clif_PyObjAs_pair {α β : Type} (asT : PyObj → Except PyError α)
    (asU : PyObj → Except PyError β) (py : PyObj) (c : α × β) :
    Bool × (α × β) :=
  match PySequence_Length py with
  | none => (false, c)
  | some len =>
      if len ≠ 2 then (false, c)
      else
        match PySequence_ITEM py 0 with
        | none => (false, c)
        | some item0 =>
            match asT item0 with
            | .error _ => (false, c)
            | .ok k =>
                match PySequence_ITEM py 1 with
                | none => (false, c)
                | some item1 =>
                    match asU item1 with
                    | .error _ => (false, c)
                    | .ok v => (true, (k, v))

/-- PyObject_IsTrue restricted to int-like objects: 1 for a nonzero value,
0 for zero. -/
def pyObjectIsTrue (res : PyObj) : Int :=
  match pyIntVal res with
  | some v => if v = 0 then 0 else 1
  | none => 1

/-- slot::as_bool: for an exact int or a bool result return its truth
value; any other shape is released and reported as a value error with
return -1.  Result: (return value, pending error, number of Py_DECREF of
the input). -/
def as_bool (res : PyObj) : Int × ErrState × Nat :=
  if PyLong_CheckExact res || PyBool_Check res then
    (pyObjectIsTrue res, none, 1)
  else
    (-1, some ⟨.valueError, "__nonzero__ must return int or bool"⟩, 1)

/-- The Mersenne modulus of host integer hashing. -/
def pyHashModulus : Int := 2305843009213693951

/-- PyObject_Hash on an integer value: reduction modulo 2^61 - 1 keeping
the sign, with -1 replaced by -2. -/
def pyHashInt (v : Int) : Int :=
  let m := if 0 ≤ v then v % pyHashModulus else -((-v) % pyHashModulus)
  if m = -1 then -2 else m

/-- PyObject_Hash restricted to the int-like objects as_hash applies it
to. -/
def PyObject_Hash (res : PyObj) : Int :=
  match pyIntVal res with
  | some v => pyHashInt v
  | none => 0

/-- slot::as_hash: a non-int result is released and fails with a type
error; an int result is read through C long, and on overflow the error is
cleared and the generic host hashing operation of the runtime is used
instead.  Result: (return value, pending error, number of Py_DECREF of the
input). -/
def as_hash (res : PyObj) : Int × ErrState × Nat :=
  if PyLong_Check res then
    match PyLong_AsLong res with
    | .ok i => (i, none, 1)
    | .error e =>
        if e.exc = .overflowError then (PyObject_Hash res, none, 1)
        else (-1, some e, 1)
  else (-1, some ⟨.typeError, "__hash__ must return int"⟩, 1)

/-- A variant-alternative conversion that always fails with a type error,
standing for an alternative the value does not match. -/
def demoRejecting (tag : String) : VariantConv Int :=
  fun _ _ => (none, some ⟨.typeError, tag⟩)

/-- A variant-alternative conversion accepting int-like host values. -/
def demoIntAlternative : VariantConv Int :=
  fun py st =>
    match pyIntVal py with
    | some v => (some v, st)
    | none => (none, some ⟨.typeError, "expecting int"⟩)

/-- An element ToHost conversion failing exactly on the value 3, used to
exercise the partial-failure path of list building. -/
def demoElemFrom (n : Int) : Option PyObj :=
  if n = 3 then none else some (.pyInt n)

theorem mapOpt_total {α β : Type} (g : α → β) (l : List α) :
    mapOpt (fun a => some (g a)) l = some (l.map g) := by
  induction l with
  | nil => rfl
  | cons x xs ih => simp [mapOpt, ih]

theorem mapOpt_length {α β : Type} (f : α → Option β) (xs : List α)
    (vs : List β) (h : mapOpt f xs = some vs) : vs.length = xs.length := by
  induction xs generalizing vs with
  | nil =>
      simp only [mapOpt] at h
      injection h with h2
      subst h2
      rfl
  | cons x xs ih =>
      simp only [mapOpt] at h
      rcases hfx : f x with _ | v <;> rw [hfx] at h
      · exact absurd h (by simp)
      · rcases hm : mapOpt f xs with _ | ws <;> rw [hm] at h
        · exact absurd h (by simp)
        · have h2 : v :: ws = vs := by simpa using h
          rw [← h2]
          simp [ih ws hm]

theorem mapOpt_forall2 {α β : Type} (f : α → Option β) (xs : List α)
    (vs : List β) (h : mapOpt f xs = some vs) :
    List.Forall₂ (fun x v => f x = some v) xs vs := by
  induction xs generalizing vs with
  | nil =>
      simp only [mapOpt] at h
      injection h with h2
      subst h2
      exact List.Forall₂.nil
  | cons x xs ih =>
      simp only [mapOpt] at h
      rcases hfx : f x with _ | v <;> rw [hfx] at h
      · exact absurd h (by simp)
      · rcases hm : mapOpt f xs with _ | ws <;> rw [hm] at h
        · exact absurd h (by simp)
        · have h2 : v :: ws = vs := by simpa using h
          rw [← h2]
          exact List.Forall₂.cons hfx (ih ws hm)

theorem mapOpt_none_of_mem {α β : Type} (f : α → Option β) (xs : List α)
    (x : α) (hx : x ∈ xs) (hf : f x = none) : mapOpt f xs = none := by
  induction xs with
  | nil => cases hx
  | cons y ys ih =>
      rcases List.mem_cons.1 hx with h | h
      · subst h; simp [mapOpt, hf]
      · simp only [mapOpt]
        rcases hfy : f y with _ | v
        · rfl
        · simp [ih h]

theorem listFromLoop_eq {α : Type} (f : α → Option PyObj) (xs : List α)
    (acc : List PyObj) (live : Nat) :
    listFromLoop f xs acc live =
      match mapOpt f xs with
      | some vs => (some (.pyList (acc.reverse ++ vs)), live + vs.length)
      | none => (none, live - (1 + acc.length)) := by
  induction xs generalizing acc live with
  | nil => simp [listFromLoop, mapOpt]
  | cons x xs ih =>
      rcases hfx : f x with _ | v
      · simp [listFromLoop, mapOpt, hfx]
      · simp only [listFromLoop, mapOpt, hfx, ih]
        rcases hm : mapOpt f xs with _ | vs
        · simp only [Option.map_none', List.length_cons]
          have h2 : live + 1 - (1 + (acc.length + 1)) = live - (1 + acc.length) := by
            omega
          rw [h2]
        · simp only [Option.map_some', List.reverse_cons, List.append_assoc,
            List.cons_append, List.nil_append, List.length_cons]
          have h2 : live + 1 + vs.length = live + (vs.length + 1) := by omega
          rw [h2]

theorem listFromSizableCont_eq {α : Type} (f : α → Option PyObj)
    (c : List α) (live : Nat) :
    ListFromSizableCont f c live =
      match mapOpt f c with
      | some vs => (some (.pyList vs), live + 1 + vs.length)
      | none => (none, live) := by
  rw [ListFromSizableCont, listFromLoop_eq]
  rcases hm : mapOpt f c with _ | vs <;> simp

theorem mapExc_ok_comp {α : Type} (as : PyObj → Except PyError α)
    (g : α → PyObj) (l : List α) (h : ∀ x ∈ l, as (g x) = .ok x) :
    mapExc as (l.map g) = .ok l := by
  induction l with
  | nil => rfl
  | cons x xs ih =>
      simp only [List.map_cons, mapExc, h x (List.mem_cons_self x xs)]
      rw [ih fun y hy => h y (List.mem_cons_of_mem x hy)]
      rfl

theorem iterToCont_eq {α : Type} (as : PyObj → Except PyError α)
    (els : List PyObj) (acc : List α) :
    iterToCont as els acc =
      match mapExc as els with
      | .ok vs => .ok (acc.reverse ++ vs)
      | .error e => .error e := by
  induction els generalizing acc with
  | nil => simp [iterToCont, mapExc]
  | cons el rest ih =>
      rcases has : as el with e | item
      · simp [iterToCont, mapExc, has]
      · simp only [iterToCont, mapExc, has, ih]
        rcases hm : mapExc as rest with e | vs <;> simp [Except.map]

theorem pyObjAsVariantTryAll_all_fail {α : Type}
    (convs : List (VariantConv α)) (py : PyObj)
    (h : ∀ d ∈ convs, (d py none).1 = none) :
    PyObjAsVariantTryAll convs py none = (none, some variantExhaustedError) := by
  induction convs with
  | nil => rfl
  | cons c rest ih =>
      have hc := h c (List.mem_cons_self c rest)
      rcases hcp : c py none with ⟨r, st⟩
      rw [hcp] at hc
      simp only at hc
      subst hc
      simp only [PyObjAsVariantTryAll, hcp]
      exact ih fun d hd => h d (List.mem_cons_of_mem c hd)

theorem pyObjAsVariantTryAll_first_success {α : Type}
    (pre : List (VariantConv α)) (c : VariantConv α)
    (post : List (VariantConv α)) (py : PyObj) (v : α) (st1 : ErrState)
    (hpre : ∀ d ∈ pre, (d py none).1 = none)
    (hc : c py none = (some v, st1)) :
    PyObjAsVariantTryAll (pre ++ c :: post) py none = (some v, st1) := by
  induction pre with
  | nil => simp only [List.nil_append, PyObjAsVariantTryAll, hc]
  | cons d ds ih =>
      have hd := hpre d (List.mem_cons_self d ds)
      rcases hdp : d py none with ⟨r, st⟩
      rw [hdp] at hd
      simp only at hd
      subst hd
      simp only [List.cons_append, PyObjAsVariantTryAll, hdp]
      exact ih fun e he => hpre e (List.mem_cons_of_mem d he)

theorem clif_PyObjAs_ulong_ok (py : PyObj) (i : Int)
    (h : clif_PyObjAs_ulong py = .ok i) :
    pyIntVal py = some i ∧ 0 ≤ i ∧ i ≤ ULONG_MAX := by
  by_cases hpc : PyLong_Check py = true
  · rcases hv : pyIntVal py with _ | v
    · simp [clif_PyObjAs_ulong, PyLong_AsUnsignedLong, hpc, hv] at h
    · simp only [clif_PyObjAs_ulong, PyLong_AsUnsignedLong, hpc, hv,
        if_true] at h
      split_ifs at h with h1 h2
      simp only [Except.ok.injEq] at h
      subst h
      exact ⟨rfl, by omega, by assumption⟩
  · simp [clif_PyObjAs_ulong, hpc] at h

theorem Iterator.next_of_self_none {α : Type} (s : Iterator α)
    (h : s.self = none) : s.next = (none, s) := by
  unfold Iterator.next
  rw [h]

theorem Iterator.advance_of_self_none {α : Type} (s : Iterator α)
    (h : s.self = none) : ∀ n, s.advance n = s := by
  intro n
  induction n with
  | zero => rfl
  | succ n ih =>
      unfold Iterator.advance
      rw [Iterator.next_of_self_none s h]
      exact ih

theorem clif_PyObjAs_int_pyInt (v : Int) (h1 : INT_MIN ≤ v)
    (h2 : v ≤ INT_MAX) : clif_PyObjAs_int (.pyInt v) = .ok v := by
  have hb : LONG_MIN ≤ v ∧ v ≤ LONG_MAX := by
    simp only [INT_MIN, INT_MAX] at h1 h2
    simp only [LONG_MIN, LONG_MAX]
    omega
  have hi : ¬(INT_MAX < v ∨ v < INT_MIN) := by omega
  simp [clif_PyObjAs_int, PyLong_Check, PyLong_AsLong, pyIntVal, hb, hi]

theorem mapOpt_pyInt (l : List Int) :
    mapOpt (fun v => some (clif_PyObjFrom_int v)) l =
      some (l.map fun v => PyObj.pyInt v) :=
  mapOpt_total (fun v => PyObj.pyInt v) l

/-- C1: FromHost for std::variant attempts conversion to each alternative
in declared order and commits to the first success, returning it together
with the error indicator that successful attempt left; a failed attempt is
followed by clearing the pending error indicator before the next attempt,
so every attempt after the first runs from a clear indicator; only when
every alternative has failed does it set the single terminal type error
and fail. -/
theorem variant_fromHost_first_match_wins :
    (∀ (α : Type) (convs : List (VariantConv α)) (py : PyObj),
        (∀ d ∈ convs, (d py none).1 = none) →
        PyObjAsVariantTryAll convs py none =
          (none, some variantExhaustedError)) ∧
    (∀ (α : Type) (pre : List (VariantConv α)) (c : VariantConv α)
        (post : List (VariantConv α)) (py : PyObj) (v : α) (st1 : ErrState),
        (∀ d ∈ pre, (d py none).1 = none) →
        c py none = (some v, st1) →
        PyObjAsVariantTryAll (pre ++ c :: post) py none = (some v, st1)) :=
  ⟨fun _ convs py h => pyObjAsVariantTryAll_all_fail convs py h,
   fun _ pre c post py v st1 h1 h2 =>
     pyObjAsVariantTryAll_first_success pre c post py v st1 h1 h2⟩

/-- Witness for C1: in a five-alternative union whose second and fifth
alternatives both accept the value, the resolver commits to the second and
the error indicator is clear afterwards; on a value no alternative accepts
the terminal type error is set. -/
theorem variant_fromHost_first_match_wins_witness :
    PyObjAsVariantTryAll
        [demoRejecting "A1", demoIntAlternative, demoRejecting "A3",
         demoRejecting "A4", demoIntAlternative] (.pyInt 7) none =
      (some 7, none) ∧
    PyObjAsVariantTryAll
        [demoRejecting "A1", demoRejecting "A2"] (.pyStr []) none =
      (none, some variantExhaustedError) := by
  constructor
  · have h := variant_fromHost_first_match_wins.2 Int [demoRejecting "A1"]
      demoIntAlternative
      [demoRejecting "A3", demoRejecting "A4", demoIntAlternative]
      (.pyInt 7) 7 none
      (by
        intro d hd
        simp only [List.mem_singleton] at hd
        subst hd
        rfl)
      rfl
    simpa using h
  · exact variant_fromHost_first_match_wins.1 Int
      [demoRejecting "A1", demoRejecting "A2"] (.pyStr [])
      (by
        intro d hd
        simp only [List.mem_cons, List.mem_singleton, List.not_mem_nil,
          or_false] at hd
        rcases hd with h | h <;> (subst h; rfl))

/-- C2: round trip: converting an in-range native value to a host value
and back yields the original value, for the int scalar (through the long
path), for std::string (through bytes), and for std::vector of int built
by ListFromSizableCont and read back elementwise. -/
theorem roundtrip_toHost_fromHost :
    (∀ v : Int, INT_MIN ≤ v → v ≤ INT_MAX →
        clif_PyObjAs_int (clif_PyObjFrom_int v) = .ok v) ∧
    (∀ s : List Nat, clif_PyObjAs_string (clif_PyObjFrom_bytes s) = .ok s) ∧
    (∀ l : List Int, (∀ v ∈ l, INT_MIN ≤ v ∧ v ≤ INT_MAX) →
        ∃ py, clif_PyObjFrom_vector_int l = some py ∧
          clif_PyObjAs_vector clif_PyObjAs_int py = .ok l) := by
  refine ⟨?_, ?_, ?_⟩
  · intro v h1 h2
    exact clif_PyObjAs_int_pyInt v h1 h2
  · intro s
    rfl
  · intro l hl
    refine ⟨.pyList (l.map fun v => PyObj.pyInt v), ?_, ?_⟩
    · show (ListFromSizableCont (fun v => some (clif_PyObjFrom_int v)) l 0).1 = _
      rw [listFromSizableCont_eq, mapOpt_pyInt]
    · have helem : ∀ x ∈ l, clif_PyObjAs_int ((fun v => PyObj.pyInt v) x) = .ok x := by
        intro x hx
        exact clif_PyObjAs_int_pyInt x (hl x hx).1 (hl x hx).2
      show iterToCont clif_PyObjAs_int (l.map fun v => PyObj.pyInt v) [] = .ok l
      rw [iterToCont_eq,
        mapExc_ok_comp clif_PyObjAs_int (fun v => PyObj.pyInt v) l helem]
      simp

/-- Witness for C2: the concrete sequence [1, 2, 3] converts to a host
list and back to itself. -/
theorem roundtrip_toHost_fromHost_witness :
    ∃ py, clif_PyObjFrom_vector_int [1, 2, 3] = some py ∧
      clif_PyObjAs_vector clif_PyObjAs_int py = .ok [1, 2, 3] :=
  roundtrip_toHost_fromHost.2.2 [1, 2, 3] (by intro v hv; fin_cases hv <;> constructor <;> decide)

/-- C3: FromHost into an unsigned 8-bit destination converts through the
widest unsigned integral type and then range-checks against the
destination width: -5 fails with a range (overflow) error, 300 fails with
a range error, 200 succeeds storing 200, and any success returns the exact
value of the host integer, between 0 and UCHAR_MAX, never a truncation. -/
theorem uchar_fromHost_two_step_narrowing :
    clif_PyObjAs_uchar (.pyInt (-5)) =
      .error ⟨.overflowError,
        "cannot convert negative value to unsigned int"⟩ ∧
    clif_PyObjAs_uchar (.pyInt 300) =
      .error ⟨.valueError, "value is too large for unsigned char"⟩ ∧
    clif_PyObjAs_uchar (.pyInt 200) = .ok 200 ∧
    (∀ (py : PyObj) (n : Int), clif_PyObjAs_uchar py = .ok n →
        0 ≤ n ∧ n ≤ UCHAR_MAX ∧ pyIntVal py = some n) := by
  refine ⟨rfl, rfl, rfl, ?_⟩
  intro py n h
  rcases hu : clif_PyObjAs_ulong py with e | i
  · simp only [clif_PyObjAs_uchar, hu] at h
    exact absurd h (by simp)
  · simp only [clif_PyObjAs_uchar, hu] at h
    obtain ⟨hv, h0, _⟩ := clif_PyObjAs_ulong_ok py i hu
    by_cases h1 : UCHAR_MAX < i
    · rw [if_pos h1] at h
      exact absurd h (by simp)
    · rw [if_neg h1] at h
      simp only [Except.ok.injEq] at h
      subst h
      exact ⟨h0, by omega, hv⟩

/-- Witness for C3: the in-range conversion of 200 succeeds with 200 and
the general no-truncation conjunct holds at it. -/
theorem uchar_fromHost_two_step_narrowing_witness :
    clif_PyObjAs_uchar (.pyInt 200) = .ok 200 ∧
    (0 ≤ (200 : Int) ∧ (200 : Int) ≤ UCHAR_MAX ∧
      pyIntVal (.pyInt 200) = some 200) :=
  ⟨uchar_fromHost_two_step_narrowing.2.2.1,
   uchar_fromHost_two_step_narrowing.2.2.2 (.pyInt 200) 200
     uchar_fromHost_two_step_narrowing.2.2.1⟩

/-- C4: ToHost for a sized container either returns a fully filled host
list whose length equals the container size, every element being the
successful conversion of the corresponding native element, or, when the
conversion of any element fails, returns null with the live-reference
count restored to its initial value, the partially built list having been
released; a partially filled list is never returned. -/
theorem listFromSizableCont_atomicity :
    (∀ (α : Type) (f : α → Option PyObj) (c : List α) (live live2 : Nat)
        (py : PyObj), ListFromSizableCont f c live = (some py, live2) →
        ∃ vs, py = .pyList vs ∧ vs.length = c.length ∧
          List.Forall₂ (fun x v => f x = some v) c vs ∧
          live2 = live + 1 + c.length) ∧
    (∀ (α : Type) (f : α → Option PyObj) (c : List α) (live : Nat) (x : α),
        x ∈ c → f x = none →
        ListFromSizableCont f c live = (none, live)) := by
  constructor
  · intro α f c live live2 py h
    rw [listFromSizableCont_eq] at h
    rcases hm : mapOpt f c with _ | vs <;> rw [hm] at h
    · exact absurd h (by simp)
    · simp only [Prod.mk.injEq, Option.some.injEq] at h
      obtain ⟨hpy, hlive⟩ := h
      have hlen := mapOpt_length f c vs hm
      exact ⟨vs, hpy.symm, hlen, mapOpt_forall2 f c vs hm, by omega⟩
  · intro α f c live x hx hfx
    rw [listFromSizableCont_eq, mapOpt_none_of_mem f c x hx hfx]

/-- Witness for C4: with an element conversion failing on element 3 of 5,
the call returns null and the live-reference count is back to its initial
value 7. -/
theorem listFromSizableCont_atomicity_witness :
    ListFromSizableCont demoElemFrom [1, 2, 3, 4, 5] 7 = (none, 7) :=
  listFromSizableCont_atomicity.2 Int demoElemFrom [1, 2, 3, 4, 5] 7 3
    (by decide) rfl

/-- C5: a failed FromHost conversion into an ownership wrapper leaves the
destination in its empty state: the optional conversion resets the
destination on any payload failure, and the owning-pointer conversion
assigns the destination only on success, so an initially null destination
is still null after a failure; neither ever exposes a half-initialized
payload. -/
theorem wrapper_fromHost_fail_leaves_empty :
    (∀ (α : Type) (as : PyObj → Except PyError α) (py : PyObj)
        (c : Option α), (clif_PyObjAs_optional as py c).1 = false →
        (clif_PyObjAs_optional as py c).2 = none) ∧
    (∀ (α : Type) (as : PyObj → Except PyError α) (py : PyObj),
        (clif_PyObjAs_unique_ptr as py none).1 = false →
        (clif_PyObjAs_unique_ptr as py none).2 = none) := by
  constructor
  · intro α as py c h
    by_cases hn : pyIsNone py = true
    · simp [clif_PyObjAs_optional, hn] at h
    · rcases has : as py with e | v <;>
        simp [clif_PyObjAs_optional, hn, has] at h ⊢
  · intro α as py h
    rcases has : as py with e | v <;>
      simp [clif_PyObjAs_unique_ptr, has] at h ⊢

/-- Witness for C5: a failing int payload conversion leaves an optional
destination (even one previously holding 5) empty, and leaves a null
owning-pointer destination null. -/
theorem wrapper_fromHost_fail_leaves_empty_witness :
    (clif_PyObjAs_optional clif_PyObjAs_int (.pyStr []) (some 5)).2 = none ∧
    (clif_PyObjAs_unique_ptr clif_PyObjAs_int (.pyStr []) none).2 = none :=
  ⟨wrapper_fromHost_fail_leaves_empty.1 Int clif_PyObjAs_int (.pyStr [])
     (some 5) rfl,
   wrapper_fromHost_fail_leaves_empty.2 Int clif_PyObjAs_int (.pyStr []) rfl⟩

/-- C6 counterexample: on a non-integral result the truthiness adapter
leaves a ValueError pending, not a TypeError as the claim states. -/
theorem as_bool_error_class_counterexample :
    (as_bool PyObj.pyNone).2.1.map PyError.exc = some PyExc.valueError ∧
    PyExc.valueError ≠ PyExc.typeError :=
  ⟨rfl, by decide⟩

/-- C6 (amended): the truthiness adapter returns the truth value (0 or 1)
of an exact-int-shaped or bool result; for a result of any other shape it
fails returning -1 with a value error pending; in every case it releases
the input host value exactly once. -/
theorem as_bool_truthiness :
    (∀ (res : PyObj) (v : Int), pyIntVal res = some v →
        as_bool res = (if v = 0 then 0 else 1, none, 1)) ∧
    (∀ res : PyObj, pyIntVal res = none →
        as_bool res =
          (-1, some ⟨.valueError, "__nonzero__ must return int or bool"⟩,
           1)) ∧
    (∀ res : PyObj, (as_bool res).2.2 = 1) := by
  refine ⟨?_, ?_, ?_⟩
  · intro res v h
    cases res <;> simp [pyIntVal] at h
    case pyBool b =>
        subst h
        cases b <;>
          simp [as_bool, PyLong_CheckExact, PyBool_Check, pyObjectIsTrue,
            pyIntVal]
    case pyInt w =>
        subst h
        simp [as_bool, PyLong_CheckExact, PyBool_Check, pyObjectIsTrue,
          pyIntVal]
  · intro res h
    cases res <;>
      simp_all [as_bool, pyIntVal, PyLong_CheckExact, PyBool_Check]
  · intro res
    cases res <;> simp [as_bool, PyLong_CheckExact, PyBool_Check]

/-- Witness for C6: a nonzero exact int yields truth value 1 with no
pending error and one release of the input. -/
theorem as_bool_truthiness_witness : as_bool (.pyInt 5) = (1, none, 1) := by
  have h := as_bool_truthiness.1 (.pyInt 5) 5 rfl
  simpa using h

/-- C7: the hash adapter fails with a type error for a non-integral
result; an integral result that overflows the native hash width has the
overflow error cleared and falls back to the generic host hashing of the
result object instead of failing; an in-range integral result is returned
as is; every path releases the input exactly once. -/
theorem as_hash_overflow_recoverable :
    (∀ res : PyObj, PyLong_Check res = false →
        as_hash res =
          (-1, some ⟨.typeError, "__hash__ must return int"⟩, 1)) ∧
    (∀ v : Int, v < LONG_MIN ∨ LONG_MAX < v →
        as_hash (.pyInt v) = (pyHashInt v, none, 1)) ∧
    (∀ v : Int, LONG_MIN ≤ v → v ≤ LONG_MAX →
        as_hash (.pyInt v) = (v, none, 1)) ∧
    (∀ res : PyObj, (as_hash res).2.2 = 1) := by
  refine ⟨?_, ?_, ?_, ?_⟩
  · intro res h
    simp [as_hash, h]
  · intro v hv
    have hb : ¬(LONG_MIN ≤ v ∧ v ≤ LONG_MAX) := by omega
    simp [as_hash, PyLong_Check, PyLong_AsLong, pyIntVal, hb, PyObject_Hash]
  · intro v h1 h2
    have hb : LONG_MIN ≤ v ∧ v ≤ LONG_MAX := ⟨h1, h2⟩
    simp [as_hash, PyLong_Check, PyLong_AsLong, pyIntVal, hb]
  · intro res
    by_cases hc : PyLong_Check res = true
    · rcases hal : PyLong_AsLong res with e | i
      · by_cases he : e.exc = .overflowError <;>
          simp [as_hash, hc, hal, he]
      · simp [as_hash, hc, hal]
    · simp [as_hash, hc]

/-- Witness for C7: 2 to the power 63 overflows the C long hash width and
falls back to the generic host hash with the overflow cleared, while a
bytes result fails with the type error. -/
theorem as_hash_overflow_recoverable_witness :
    as_hash (.pyInt 9223372036854775808) =
      (pyHashInt 9223372036854775808, none, 1) ∧
    as_hash (.pyBytes []) =
      (-1, some ⟨.typeError, "__hash__ must return int"⟩, 1) :=
  ⟨as_hash_overflow_recoverable.2.1 9223372036854775808
     (Or.inr (by simp only [LONG_MAX]; omega)),
   as_hash_overflow_recoverable.1 (.pyBytes []) rfl⟩

/-- C8: iterator exhaustion is terminal: a Next call that signals
exhaustion leaves the hold on the Shared Container Handle released, and
from any state with the handle released every subsequent Next call again
signals exhaustion without reacquiring the handle. -/
theorem iterator_next_exhaustion_terminal :
    (∀ (α : Type) (s s2 : Iterator α), s.next = (none, s2) →
        s2.self = none) ∧
    (∀ (α : Type) (s : Iterator α), s.self = none → ∀ n : Nat,
        (s.advance n).next = (none, s.advance n) ∧
        (s.advance n).self = none) := by
  constructor
  · intro α s s2 h
    obtain ⟨sf, it⟩ := s
    cases sf with
    | none =>
        simp only [Iterator.next] at h
        injection h with h1 h2
        subst h2
        rfl
    | some cont =>
        simp only [Iterator.next] at h
        split at h
        · simp at h
        · injection h with h1 h2
          subst h2
          rfl
  · intro α s hs n
    rw [Iterator.advance_of_self_none s hs n]
    exact ⟨Iterator.next_of_self_none s hs, hs⟩

/-- Witness for C8: an iterator at the end of a two-element container
signals exhaustion and drops its hold, and three further calls on the
released state all signal exhaustion again. -/
theorem iterator_next_exhaustion_terminal_witness :
    (Iterator.mk (some [(1 : Int), 2]) 2).next =
      (none, Iterator.mk none 2) ∧
    (Iterator.mk (none : Option (List Int)) 2).self = none ∧
    ((Iterator.mk (none : Option (List Int)) 2).advance 3).next =
      (none, (Iterator.mk (none : Option (List Int)) 2).advance 3) := by
  refine ⟨rfl, ?_, ?_⟩
  · exact iterator_next_exhaustion_terminal.1 Int
      (Iterator.mk (some [1, 2]) 2) (Iterator.mk none 2) rfl
  · exact (iterator_next_exhaustion_terminal.2 Int
      (Iterator.mk none 2) rfl 3).1

/-- C9: wrapping a host callable as a native std::function of arity n
fails with a type error when the host value is not callable, fails with an
arity-mismatch error when the callable does not accept n arguments, and in
both failure cases leaves the destination unassigned; only on success is
the destination assigned the wrapper retaining the callable, and no
invocation happens during construction. -/
theorem function_fromHost_validates_arity :
    (∀ (py : PyObj) (n : Nat) (c : Option Nat),
        PyCallable_Check py = false →
        clif_PyObjAs_function py n c =
          (false, some ⟨.typeError, "callable expected"⟩, c)) ∧
    (∀ (a id n : Nat) (c : Option Nat), a ≠ n →
        clif_PyObjAs_function (.pyCallable a id) n c =
          (false,
           some ⟨.typeError, "callable has the wrong number of arguments"⟩,
           c)) ∧
    (∀ (a id : Nat) (c : Option Nat),
        clif_PyObjAs_function (.pyCallable a id) a c =
          (true, none, some id)) := by
  refine ⟨?_, ?_, ?_⟩
  · intro py n c h
    simp [clif_PyObjAs_function, h]
  · intro a id n c h
    simp [clif_PyObjAs_function, PyCallable_Check, CallableNeedsNarguments,
      callableArity, callableId, h]
  · intro a id c
    simp [clif_PyObjAs_function, PyCallable_Check, CallableNeedsNarguments,
      callableArity, callableId]

/-- Witness for C9: a callable of arity 2 wrapped for a native signature
expecting 3 arguments fails with the arity-mismatch error, the destination
left empty. -/
theorem function_fromHost_validates_arity_witness :
    clif_PyObjAs_function (.pyCallable 2 0) 3 none =
      (false,
       some ⟨.typeError, "callable has the wrong number of arguments"⟩,
       none) :=
  function_fromHost_validates_arity.2.1 2 0 3 none (by decide)

/-- C10: FromHost for std::pair is atomic on the destination: both
elements are converted into local temporaries first and the destination is
written only after both succeed, so on any failure (host value not a
length-2 sequence, or either element conversion failing) the destination
pair is exactly what it was before the call. -/
theorem pair_fromHost_atomic :
    (∀ (α β : Type) (asT : PyObj → Except PyError α)
        (asU : PyObj → Except PyError β) (py : PyObj) (c : α × β),
        (clif_PyObjAs_pair asT asU py c).1 = false →
        (clif_PyObjAs_pair asT asU py c).2 = c) ∧
    (∀ (α β : Type) (asT : PyObj → Except PyError α)
        (asU : PyObj → Except PyError β) (py : PyObj) (c : α × β)
        (k : α) (v : β),
        clif_PyObjAs_pair asT asU py c = (true, (k, v)) →
        PySequence_Length py = some 2 ∧
        (∃ i0, PySequence_ITEM py 0 = some i0 ∧ asT i0 = .ok k) ∧
        (∃ i1, PySequence_ITEM py 1 = some i1 ∧ asU i1 = .ok v)) := by
  constructor
  · intro α β asT asU py c h
    rcases hl : PySequence_Length py with _ | len <;>
      simp only [clif_PyObjAs_pair, hl] at h ⊢
    by_cases hlen : len = 2
    · subst hlen
      simp only [ne_eq, not_true_eq_false, if_false, reduceIte] at h ⊢
      rcases hi0 : PySequence_ITEM py 0 with _ | item0 <;>
        simp only [hi0] at h ⊢
      rcases ht : asT item0 with e | k <;> simp only [ht] at h ⊢
      rcases hi1 : PySequence_ITEM py 1 with _ | item1 <;>
        simp only [hi1] at h ⊢
      rcases hu2 : asU item1 with e | v <;> simp only [hu2] at h ⊢
      simp at h
    · simp only [hlen, ne_eq, not_false_eq_true, if_true, reduceIte] at h ⊢
  · intro α β asT asU py c k v h
    rcases hl : PySequence_Length py with _ | len <;>
      simp only [clif_PyObjAs_pair, hl] at h
    · simp at h
    by_cases hlen : len = 2
    · subst hlen
      simp only [ne_eq, not_true_eq_false, if_false, reduceIte] at h
      rcases hi0 : PySequence_ITEM py 0 with _ | item0 <;>
        simp only [hi0] at h
      · simp at h
      rcases ht : asT item0 with e | k2 <;> simp only [ht] at h
      · simp at h
      rcases hi1 : PySequence_ITEM py 1 with _ | item1 <;>
        simp only [hi1] at h
      · simp at h
      rcases hu2 : asU item1 with e | v2 <;> simp only [hu2] at h
      · simp at h
      simp only [Prod.mk.injEq] at h
      obtain ⟨_, hk, hv⟩ := h
      subst hk
      subst hv
      exact ⟨rfl, ⟨item0, rfl, ht⟩, ⟨item1, rfl, hu2⟩⟩
    · simp only [hlen, ne_eq, not_false_eq_true, if_true, reduceIte] at h
      simp at h

/-- Witness for C10: a tuple whose second element fails int conversion
leaves the destination pair (7, 8) unchanged, and a fully converting
tuple commits both elements. -/
theorem pair_fromHost_atomic_witness :
    (clif_PyObjAs_pair clif_PyObjAs_int clif_PyObjAs_int
        (.pyTuple [.pyInt 1, .pyStr []]) ((7 : Int), (8 : Int))).2 =
      ((7 : Int), (8 : Int)) ∧
    (PySequence_Length (.pyTuple [.pyInt 1, .pyInt 2]) = some 2 ∧
      (∃ i0, PySequence_ITEM (.pyTuple [.pyInt 1, .pyInt 2]) 0 = some i0 ∧
        clif_PyObjAs_int i0 = .ok 1) ∧
      (∃ i1, PySequence_ITEM (.pyTuple [.pyInt 1, .pyInt 2]) 1 = some i1 ∧
        clif_PyObjAs_int i1 = .ok 2)) :=
  ⟨pair_fromHost_atomic.1 Int Int clif_PyObjAs_int clif_PyObjAs_int
     (.pyTuple [.pyInt 1, .pyStr []]) (7, 8) rfl,
   pair_fromHost_atomic.2 Int Int clif_PyObjAs_int clif_PyObjAs_int
     (.pyTuple [.pyInt 1, .pyInt 2]) (0, 0) 1 2 rfl⟩

end ClifSpec
